import Mathlib

/-!
Verification of the layered batch ETL pipeline of this repository
(week-03-04-python-etl): the raw-layer ingestor (etl_raw.py), the staging
transformer (etl_stg.py), the production aggregations (etl_prod.py), the
validation engine (validators.py) and the synthetic data generator
(generate_raw_data.py).

Embedding conventions:
- pandas DataFrames become lists of records; nullable columns are Option.
- SQL queries of the staging / production layers become list pipelines.
- Monetary values are rationals; round(x, 2) rounds to a hundredth.
- Wall-clock timestamps (datetime.now) become an explicit Nat parameter.
- The random module, the Faker instance and the dedicated error RNG of the
  generator become three explicit draw streams with cursors; the error
  stream draws basis points in [0, 10000) mirroring error_rng.random()
  compared against the defect-rate constants.
-/

namespace ETL

/-- Keep the first row for each key, in original row order: the pandas
drop_duplicates(subset, keep = first) used by every staging transform. -/
def dedupByKeyAux {α κ : Type} [DecidableEq κ] (key : α → κ) (seen : List κ) :
    List α → List α
  | [] => []
  | x :: xs =>
      if key x ∈ seen then dedupByKeyAux key seen xs
      else x :: dedupByKeyAux key (key x :: seen) xs

/-- Entry point of the keep-first dedup. -/
def dedupByKey {α κ : Type} [DecidableEq κ] (key : α → κ) (l : List α) : List α :=
  dedupByKeyAux key [] l

/-- Python s[:n], a prefix of at most n characters. -/
def pyTake (n : Nat) (s : String) : String :=
  String.mk (s.data.take n)

/-- Python str.lower. -/
def pyLower (s : String) : String :=
  String.mk (s.data.map Char.toLower)

/-- Replace every at-sign with the four characters of _at_. -/
def replaceAtChars : List Char → List Char
  | [] => []
  | c :: cs =>
      if c = '@' then '_' :: 'a' :: 't' :: '_' :: replaceAtChars cs
      else c :: replaceAtChars cs

/-- Python email.replace with the at-sign pattern, the invalid-email
mangle of introduce_errors_customer. -/
def replaceAtSign (s : String) : String :=
  String.mk (replaceAtChars s.data)

/-- Python str.capitalize: first character upper-cased, the rest lower-cased. -/
def pyCapitalize (w : String) : String :=
  match w.data with
  | [] => ""
  | c :: cs => String.mk (c.toUpper :: cs.map Char.toLower)

/-- Splitting a character list into maximal whitespace-free words. -/
def pySplitAux : List Char → List Char → List (List Char)
  | [], cur => if cur = [] then [] else [cur.reverse]
  | c :: cs, cur =>
      if c.isWhitespace then
        if cur = [] then pySplitAux cs [] else cur.reverse :: pySplitAux cs []
      else pySplitAux cs (c :: cur)

/-- Python str.split with no argument: split on whitespace runs, dropping
empty pieces. -/
def pySplit (s : String) : List String :=
  (pySplitAux s.data []).map String.mk

/-- StagingLayerETL._capitalize_name on a non-null name: capitalize each
whitespace-delimited word and re-join with single spaces. -/
def capitalizeWords (s : String) : String :=
  String.intercalate " " ((pySplit s).map pyCapitalize)

/-- Characters allowed in the local part of the email regex
[a-zA-Z0-9._%+-] (Char.isAlpha and Char.isDigit are ASCII-only). -/
def isLocalChar (c : Char) : Bool :=
  c.isAlpha || c.isDigit || c == '.' || c == '_' || c == '%' || c == '+' || c == '-'

/-- Characters allowed in the domain part of the email regex [a-zA-Z0-9.-]. -/
def isDomainChar (c : Char) : Bool :=
  c.isAlpha || c.isDigit || c == '.' || c == '-'

/-- Split a character list on a separator character, keeping empty pieces
(the str.split(sep) shape the at-sign split of the email pattern needs). -/
def splitOnChar (sep : Char) : List Char → List (List Char)
  | [] => [[]]
  | c :: cs =>
      match splitOnChar sep cs with
      | [] => [[]]
      | g :: gs => if c = sep then [] :: g :: gs else (c :: g) :: gs

/-- Decides the email pattern used both by StagingLayerETL._validate_email
and DataValidator.check_email_format: a nonempty local part over
[a-zA-Z0-9._%+-], one at-sign, then a domain over [a-zA-Z0-9.-] that ends in
a dot followed by at least two letters. -/
def validEmail (s : String) : Bool :=
  match splitOnChar '@' s.data with
  | [lpart, domain] =>
      decide (0 < lpart.length) && lpart.all isLocalChar &&
      (let revd := domain.reverse
       let tld := revd.takeWhile (fun c => c != '.')
       match revd.drop tld.length with
       | '.' :: pre =>
           decide (2 ≤ tld.length) && tld.all (fun c => c.isAlpha) &&
           decide (0 < pre.length) && pre.all isDomainChar
       | _ => false)
  | _ => false

/-- Round a rational to the nearest integer, halves up: the floor of
q + 1/2, computed on the numerator and denominator. -/
def ratRound (q : ℚ) : ℤ := (2 * q.num + (q.den : ℤ)).fdiv (2 * (q.den : ℤ))

/-- Python round(x, 2) modelled as rounding to the nearest hundredth. -/
def round2 (q : ℚ) : ℚ := (ratRound (q * 100) : ℚ) / 100

/-! ## Validation engine (validators.py) -/

/-- One entry of the accumulated result list, validators.ValidationResult.
The wall-clock timestamp attribute is metadata and is omitted. -/
structure ValidationResult where
  rule_name : String
  passed : Bool
  message : String
  failed_rows : Nat
deriving Repr, DecidableEq

/-- One cell of an in-memory pandas table: missing (NaN / None), a string,
or a number. -/
inductive VCell where
  | null : VCell
  | str (s : String) : VCell
  | num (q : ℚ) : VCell
deriving Repr, DecidableEq

/-- A DataFrame as the validator sees it: named columns of cells. -/
structure VFrame where
  cols : List (String × List VCell)
deriving Repr, DecidableEq

/-- Look a column up by name (the `col in self.df.columns` test plus the
column read). -/
def VFrame.column (df : VFrame) (name : String) : Option (List VCell) :=
  (df.cols.find? (fun c => c.1 = name)).map (fun c => c.2)

/-- pandas isna on a cell. -/
def VCell.isNull : VCell → Bool
  | .null => true
  | _ => false

/-- astype(str) on a cell: pandas renders a missing value as the string
nan, which is what check_regex_pattern ends up matching against. -/
def VCell.pyStr : VCell → String
  | .null => "nan"
  | .str s => s
  | .num q => toString q

/-- DataValidator.check_no_nulls: one result per requested column; a column
that does not exist records a FAIL result. -/
def checkNoNulls (df : VFrame) (columns : List String) : List ValidationResult :=
  columns.map (fun col =>
    match df.column col with
    | none =>
        { rule_name := "no_nulls_" ++ col
          passed := false
          message := "Column " ++ col ++ " not found in dataset"
          failed_rows := 0 }
    | some cells =>
        let nullCount := cells.countP (fun c => c.isNull)
        { rule_name := "no_nulls_" ++ col
          passed := nullCount == 0
          message :=
            if nullCount == 0 then "No nulls in " ++ col
            else "Found " ++ toString nullCount ++ " null values in " ++ col
          failed_rows := nullCount })

/-- DataValidator.check_unique: a column that does not exist is silently
skipped; otherwise count duplicated() entries (occurrences after the first). -/
def checkUnique (df : VFrame) (columns : List String) : List ValidationResult :=
  columns.filterMap (fun col =>
    match df.column col with
    | none => none
    | some cells =>
        let dupCount := cells.length - (dedupByKey id cells).length
        some
          { rule_name := "unique_" ++ col
            passed := dupCount == 0
            message :=
              if dupCount == 0 then "All values unique in " ++ col
              else "Found " ++ toString dupCount ++ " duplicates in " ++ col
            failed_rows := dupCount })

/-- DataValidator.check_value_range: a column that does not exist is
silently skipped (return self appends nothing); comparisons against a
missing bound contribute nothing and NaN cells compare as False. -/
def checkValueRange (df : VFrame) (column : String)
    (minValue maxValue : Option ℚ) : List ValidationResult :=
  match df.column column with
  | none => []
  | some cells =>
      let belowCount :=
        match minValue with
        | none => 0
        | some m => cells.countP (fun c =>
            match c with
            | .num q => decide (q < m)
            | _ => false)
      let aboveCount :=
        match maxValue with
        | none => 0
        | some m => cells.countP (fun c =>
            match c with
            | .num q => decide (m < q)
            | _ => false)
      let violations := belowCount + aboveCount
      [{ rule_name := "value_range_" ++ column
         passed := violations == 0
         message :=
           if violations == 0 then "All values in range"
           else "Found " ++ toString violations ++ " values outside range"
         failed_rows := violations }]

/-- DataValidator.check_regex_pattern: a column that does not exist is
silently skipped; otherwise every cell is stringified with astype(str) and
matched against the compiled pattern (na = False is dead after astype(str),
since no cell is missing any more). -/
def checkRegexPattern (df : VFrame) (column : String)
    (pattern : String → Bool) (patternName : String) : List ValidationResult :=
  match df.column column with
  | none => []
  | some cells =>
      let invalidCount := cells.countP (fun c => !(pattern c.pyStr))
      [{ rule_name := "regex_" ++ column ++ "_" ++ patternName
         passed := invalidCount == 0
         message :=
           if invalidCount == 0 then "All values match " ++ patternName
           else "Found " ++ toString invalidCount ++ " values not matching " ++ patternName
         failed_rows := invalidCount }]

/-- DataValidator.check_email_format: the email preset of the regex rule. -/
def checkEmailFormat (df : VFrame) (column : String) : List ValidationResult :=
  checkRegexPattern df column validEmail "email_format"

/-! ## Staging transformer (etl_stg.py)

Raw-layer rows as read by the SELECT queries of StagingLayerETL: every
business column can be null in raw. Dates are abstracted to day numbers. -/

/-- A raw.customers row. -/
structure RawCustomer where
  customer_id : Option Int
  customer_name : Option String
  email : Option String
  country : Option String
  signup_date : Option Nat
  customer_segment : Option String
deriving Repr, DecidableEq

/-- A raw.products row. -/
structure RawProduct where
  product_id : Option Int
  product_name : Option String
  category : Option String
  price : Option ℚ
  cost : Option ℚ
deriving Repr, DecidableEq

/-- A raw.orders row. -/
structure RawOrder where
  order_id : Option Int
  customer_id : Option Int
  order_date : Option Nat
  order_status : Option String
  total_amount : Option ℚ
deriving Repr, DecidableEq

/-- A raw.order_items row. -/
structure RawOrderItem where
  order_item_id : Option Int
  order_id : Option Int
  product_id : Option Int
  quantity : Option Int
  unit_price : Option ℚ
  discount_percent : Option ℚ
deriving Repr, DecidableEq

/-- The four raw tables the staging run reads. -/
structure RawDB where
  customers : List RawCustomer
  products : List RawProduct
  orders : List RawOrder
  order_items : List RawOrderItem
deriving Repr, DecidableEq

/-- A cleaned staging.customers row (business columns, after nulls are
dropped or defaulted). -/
structure CustomerRow where
  customer_id : Int
  customer_name : String
  email : String
  country : String
  signup_date : Nat
  customer_segment : String
deriving Repr, DecidableEq

/-- A cleaned staging.products row. -/
structure ProductRow where
  product_id : Int
  product_name : String
  category : String
  price : ℚ
  cost : ℚ
deriving Repr, DecidableEq

/-- A cleaned staging.orders row. -/
structure OrderRow where
  order_id : Int
  customer_id : Int
  order_date : Nat
  order_status : String
  total_amount : ℚ
deriving Repr, DecidableEq

/-- A cleaned staging.order_items row. -/
structure OrderItemRow where
  order_item_id : Int
  order_id : Int
  product_id : Int
  quantity : Int
  unit_price : ℚ
  discount_percent : ℚ
deriving Repr, DecidableEq

/-- A staged row with the created_at and updated_at audit columns. -/
structure Stamped (α : Type) where
  data : α
  created_at : Nat
  updated_at : Nat
deriving Repr, DecidableEq

/-- A staged row with only created_at (order_items get no updated_at). -/
structure StampedC (α : Type) where
  data : α
  created_at : Nat
deriving Repr, DecidableEq

/-- The staging schema: the four tables the transforms truncate and rewrite. -/
structure StagingDB where
  customers : List (Stamped CustomerRow)
  products : List (Stamped ProductRow)
  orders : List (Stamped OrderRow)
  order_items : List (StampedC OrderItemRow)
deriving Repr, DecidableEq

/-- StagingLayerETL._capitalize_name: null names pass through. -/
def capitalizeOpt (name : Option String) : Option String :=
  name.map capitalizeWords

/-- StagingLayerETL._validate_email: pd.isna gives False, otherwise the
email regex. -/
def validEmailOpt : Option String → Bool
  | none => false
  | some e => validEmail e

/-- isin against a list of already-staged keys; a null foreign key is never
a member. -/
def optMem (o : Option Int) (l : List Int) : Bool :=
  match o with
  | some v => decide (v ∈ l)
  | none => false

/-- The row pipeline of StagingLayerETL.transform_customers: dedup by
customer_id keep-first, capitalize names, drop invalid emails, drop rows
with a null in a required column, then fill the optional defaults
country = Unknown and customer_segment = Standard. -/
def stageCustomersRows (raw : List RawCustomer) : List CustomerRow :=
  let d1 := dedupByKey (fun r => r.customer_id) raw
  let d2 := d1.map (fun r => { r with customer_name := capitalizeOpt r.customer_name })
  let d3 := d2.filter (fun r => validEmailOpt r.email)
  let d4 := d3.filter (fun r =>
    r.customer_id.isSome && r.customer_name.isSome && r.email.isSome && r.signup_date.isSome)
  d4.map (fun r =>
    { customer_id := r.customer_id.getD 0
      customer_name := r.customer_name.getD ""
      email := r.email.getD ""
      country := r.country.getD "Unknown"
      signup_date := r.signup_date.getD 0
      customer_segment := r.customer_segment.getD "Standard" })

/-- The row pipeline of StagingLayerETL.transform_products: SELECT DISTINCT
over full rows, dedup by product_id keep-first, capitalize names, keep
non-negative price and cost (NaN comparisons are False), drop rows with a
null in a required column. -/
def stageProductsRows (raw : List RawProduct) : List ProductRow :=
  let d0 := dedupByKey id raw
  let d1 := dedupByKey (fun r => r.product_id) d0
  let d2 := d1.map (fun r => { r with product_name := capitalizeOpt r.product_name })
  let d3 := d2.filter (fun r =>
    (match r.price with
     | some p => decide (0 ≤ p)
     | none => false) &&
    (match r.cost with
     | some c => decide (0 ≤ c)
     | none => false))
  let d4 := d3.filter (fun r =>
    r.product_id.isSome && r.product_name.isSome && r.category.isSome &&
      r.price.isSome && r.cost.isSome)
  d4.map (fun r =>
    { product_id := r.product_id.getD 0
      product_name := r.product_name.getD ""
      category := r.category.getD ""
      price := r.price.getD 0
      cost := r.cost.getD 0 })

/-- The order statuses transform_orders accepts. -/
def validStatuses : List String := ["completed", "pending", "cancelled", "returned"]

/-- The row pipeline of StagingLayerETL.transform_orders: dedup by order_id
keep-first, keep only orders whose customer_id is in the just-staged
customers (referential integrity by filtering), valid status, non-negative
amount, then drop rows with nulls. -/
def stageOrdersRows (raw : List RawOrder) (validCustomers : List Int) : List OrderRow :=
  let d1 := dedupByKey (fun r => r.order_id) raw
  let d2 := d1.filter (fun r => optMem r.customer_id validCustomers)
  let d3 := d2.filter (fun r =>
    match r.order_status with
    | some s => decide (s ∈ validStatuses)
    | none => false)
  let d4 := d3.filter (fun r =>
    match r.total_amount with
    | some a => decide (0 ≤ a)
    | none => false)
  let d5 := d4.filter (fun r =>
    r.order_id.isSome && r.customer_id.isSome && r.order_date.isSome &&
      r.order_status.isSome && r.total_amount.isSome)
  d5.map (fun r =>
    { order_id := r.order_id.getD 0
      customer_id := r.customer_id.getD 0
      order_date := r.order_date.getD 0
      order_status := r.order_status.getD ""
      total_amount := r.total_amount.getD 0 })

/-- The row pipeline of StagingLayerETL.transform_order_items: dedup by
order_item_id keep-first, keep rows whose order_id and product_id are in
the just-staged orders and products, positive quantity, non-negative unit
price, discount in [0, 100] (a null discount compares False and so is
dropped before the fillna), then drop rows with nulls and default the
discount to 0. -/
def stageOrderItemsRows (raw : List RawOrderItem)
    (validOrders validProducts : List Int) : List OrderItemRow :=
  let d1 := dedupByKey (fun r => r.order_item_id) raw
  let d2 := d1.filter (fun r => optMem r.order_id validOrders)
  let d3 := d2.filter (fun r => optMem r.product_id validProducts)
  let d4 := d3.filter (fun r =>
    (match r.quantity with
     | some q => decide (0 < q)
     | none => false) &&
    (match r.unit_price with
     | some p => decide (0 ≤ p)
     | none => false))
  let d5 := d4.filter (fun r =>
    match r.discount_percent with
    | some d => decide (0 ≤ d ∧ d ≤ 100)
    | none => false)
  let d6 := d5.filter (fun r =>
    r.order_item_id.isSome && r.order_id.isSome && r.product_id.isSome &&
      r.quantity.isSome && r.unit_price.isSome)
  d6.map (fun r =>
    { order_item_id := r.order_item_id.getD 0
      order_id := r.order_id.getD 0
      product_id := r.product_id.getD 0
      quantity := r.quantity.getD 0
      unit_price := r.unit_price.getD 0
      discount_percent := r.discount_percent.getD 0 })

/-- StagingLayerETL.transform_customers: an empty raw table returns early
without touching staging, otherwise staging.customers is truncated and
rewritten, each row stamped with created_at = updated_at = now. -/
def transformCustomers (raw : RawDB) (now : Nat) (st : StagingDB) : StagingDB :=
  if raw.customers = [] then st
  else { st with customers := (stageCustomersRows raw.customers).map (fun d => ⟨d, now, now⟩) }

/-- StagingLayerETL.transform_products, same early-return shape. -/
def transformProducts (raw : RawDB) (now : Nat) (st : StagingDB) : StagingDB :=
  if raw.products = [] then st
  else { st with products := (stageProductsRows raw.products).map (fun d => ⟨d, now, now⟩) }

/-- StagingLayerETL.transform_orders: the valid customer ids are read from
the staging.customers table as it stands when this step runs. -/
def transformOrders (raw : RawDB) (now : Nat) (st : StagingDB) : StagingDB :=
  if raw.orders = [] then st
  else
    let validCustomers := st.customers.map (fun c => c.data.customer_id)
    { st with orders := (stageOrdersRows raw.orders validCustomers).map (fun d => ⟨d, now, now⟩) }

/-- StagingLayerETL.transform_order_items: valid order and product ids are
read from the staging tables as they stand when this step runs. -/
def transformOrderItems (raw : RawDB) (now : Nat) (st : StagingDB) : StagingDB :=
  if raw.order_items = [] then st
  else
    let validOrders := st.orders.map (fun o => o.data.order_id)
    let validProducts := st.products.map (fun p => p.data.product_id)
    { st with order_items :=
        (stageOrderItemsRows raw.order_items validOrders validProducts).map (fun d => ⟨d, now⟩) }

/-- StagingLayerETL.transform_all: the four transforms in dependency order
customers, products, orders, order_items. -/
def transformAll (raw : RawDB) (now : Nat) (st : StagingDB) : StagingDB :=
  transformOrderItems raw now
    (transformOrders raw now
      (transformProducts raw now
        (transformCustomers raw now st)))

/-- The business columns of the staging tables, with the created_at and
updated_at audit timestamps erased. -/
structure StagingView where
  customers : List CustomerRow
  products : List ProductRow
  orders : List OrderRow
  order_items : List OrderItemRow
deriving Repr, DecidableEq

/-- Erase the audit timestamps of a staging state. -/
def businessView (st : StagingDB) : StagingView :=
  { customers := st.customers.map (fun r => r.data)
    products := st.products.map (fun r => r.data)
    orders := st.orders.map (fun r => r.data)
    order_items := st.order_items.map (fun r => r.data) }

/-! ## Production aggregations (etl_prod.py) -/

/-- Line revenue quantity * unit_price * (1 - discount_percent / 100),
the expression every aggregation query sums. -/
def lineRevenue (it : OrderItemRow) : ℚ :=
  (it.quantity : ℚ) * it.unit_price * (1 - it.discount_percent / 100)

/-- One row of prod.customer_metrics. -/
structure CustomerMetricRow where
  customer_id : Int
  customer_name : String
  customer_segment : String
  first_order_date : Option Nat
  last_order_date : Option Nat
  total_orders : Nat
  total_items : Int
  total_revenue : ℚ
  avg_order_value : ℚ
  days_since_first_order : Option Int
  days_since_last_order : Option Int
  created_at : Nat
  updated_at : Nat
deriving Repr, DecidableEq

/-- ProdLayerETL.build_customer_metrics as a pure aggregation over the
staging tables: the LEFT JOIN from staging.customers keeps one group per
staged customer even with zero completed orders (COALESCE turning the sums
into 0), avg_order_value divides by total_orders.replace(0, 1), the days
columns subtract from today, and the output is ordered by descending
total_revenue. -/
def buildCustomerMetrics (customers : List CustomerRow) (orders : List OrderRow)
    (items : List OrderItemRow) (today : Int) (now : Nat) : List CustomerMetricRow :=
  let rows := customers.map (fun c =>
    let completed := orders.filter (fun o =>
      o.customer_id == c.customer_id && o.order_status == "completed")
    let oids : List Int := (completed.map (fun o => o.order_id)).dedup
    let myItems := items.filter (fun it => decide (it.order_id ∈ oids))
    let totalOrders := oids.length
    let totalItems := (myItems.map (fun it => it.quantity)).sum
    let revenue := round2 ((myItems.map lineRevenue).sum)
    let dates := completed.map (fun o => o.order_date)
    let firstDate := dates.min?
    let lastDate := dates.max?
    { customer_id := c.customer_id
      customer_name := c.customer_name
      customer_segment := c.customer_segment
      first_order_date := firstDate
      last_order_date := lastDate
      total_orders := totalOrders
      total_items := totalItems
      total_revenue := revenue
      avg_order_value :=
        round2 (revenue / (if totalOrders = 0 then 1 else (totalOrders : ℚ)))
      days_since_first_order := firstDate.map (fun d => today - (d : Int))
      days_since_last_order := lastDate.map (fun d => today - (d : Int))
      created_at := now
      updated_at := now })
  List.insertionSort (fun a b => b.total_revenue ≤ a.total_revenue) rows

/-! ## Raw-layer ingestor (etl_raw.py) -/

/-- What reading one partition of the generator output can yield: the
data.parquet file may be absent, pd.read_parquet may raise, or a table of
rows comes back. -/
inductive PartitionRead (ρ : Type) where
  | missing : PartitionRead ρ
  | readError (msg : String) : PartitionRead ρ
  | table (rows : List ρ) : PartitionRead ρ

/-- The raw_data directory for one table: partition date to file contents. -/
def PartitionStore (ρ : Type) := String → PartitionRead ρ

/-- Is this partition read an exception. -/
def PartitionRead.isError {ρ : Type} : PartitionRead ρ → Bool
  | .readError _ => true
  | _ => false

/-- A raw-layer row: the partition data stamped with the three metadata
columns added on ingestion. -/
structure IngestedRow (ρ : Type) where
  data : ρ
  ingested_at : Nat
  source_file : String
  partition_date : String
deriving Repr, DecidableEq

/-- RawLayerETL.ingest_partition: a missing file logs a warning and returns
0 rows; an empty table returns 0 rows; otherwise the rows are stamped and
appended. There is no handler around the read, so a read exception
propagates to the caller. -/
def ingestPartition {ρ : Type} (store : PartitionStore ρ) (tableName date : String)
    (now : Nat) : Except String (List (IngestedRow ρ)) :=
  match store date with
  | .missing => .ok []
  | .readError msg => .error msg
  | .table rows =>
      if rows.isEmpty then .ok []
      else .ok (rows.map (fun r =>
        { data := r
          ingested_at := now
          source_file := tableName ++ "/" ++ date ++ "/data.parquet"
          partition_date := date }))

/-- RawLayerETL.get_ingested_dates: the distinct _partition_date values of
the raw table, with any query exception swallowed into the empty set. -/
def getIngestedDates (query : Except String (List String)) : List String :=
  match query with
  | .ok dates => dates.dedup
  | .error _ => []

/-- The dates_to_process selection of RawLayerETL.ingest_table: incremental
mode skips already-ingested partition keys, full mode takes everything. -/
def datesToProcess (allDates : List String) (query : Except String (List String))
    (incremental : Bool) : List String :=
  if incremental then allDates.filter (fun d => !((getIngestedDates query).contains d))
  else allDates

/-- The ingestion loop of RawLayerETL.ingest_table: partitions in order,
summing rows; an exception raised by ingest_partition aborts the loop. -/
def ingestDates {ρ : Type} (store : PartitionStore ρ) (tableName : String)
    (now : Nat) : List String → Except String Nat
  | [] => .ok 0
  | d :: ds =>
      match ingestPartition store tableName d now with
      | .error msg => .error msg
      | .ok rows => (ingestDates store tableName now ds).map (fun t => rows.length + t)

/-- RawLayerETL.ingest_table: returns (partitions processed, total rows)
on success; a read exception inside the loop propagates. -/
def ingestTable {ρ : Type} (store : PartitionStore ρ) (tableName : String)
    (allDates : List String) (query : Except String (List String))
    (incremental : Bool) (now : Nat) : Except String (Nat × Nat) :=
  let dates := datesToProcess allDates query incremental
  (ingestDates store tableName now dates).map (fun total => (dates.length, total))

/-! ## Synthetic data generator (generate_raw_data.py) -/

/-- The defect-rate module constants, in basis points of 10000 so that the
comparison draw less-than rate mirrors error_rng.random() less-than the
float rate: DUPLICATE_NAME_RATE 0.04, NULL_NAME_RATE 0.02, NULL_COUNTRY_RATE
0.01, LOWERCASE_NAME_RATE 0.10, INVALID_EMAIL_RATE 0.02. -/
structure GenConfig where
  duplicateNameRate : Nat
  nullNameRate : Nat
  nullCountryRate : Nat
  lowercaseNameRate : Nat
  invalidEmailRate : Nat
deriving Repr, DecidableEq

/-- The rates as set at module level. -/
def defaultGenConfig : GenConfig :=
  { duplicateNameRate := 400
    nullNameRate := 200
    nullCountryRate := 100
    lowercaseNameRate := 1000
    invalidEmailRate := 200 }

/-- The three random sources of the generator, each an infinite stream with
a cursor: the global random module (structural draws), the Faker instance
(synthetic strings), and the dedicated error RNG random.Random(RANDOM_SEED
+ 1) whose draws are basis points in [0, 10000). -/
structure GenState where
  structDraws : Nat → Nat
  structIx : Nat
  fakeDraws : Nat → String
  fakeIx : Nat
  errorDraws : Nat → Nat
  errorIx : Nat

/-- One draw from the global random module. -/
def nextStruct (st : GenState) : Nat × GenState :=
  (st.structDraws st.structIx, { st with structIx := st.structIx + 1 })

/-- One string from the Faker instance. -/
def nextFake (st : GenState) : String × GenState :=
  (st.fakeDraws st.fakeIx, { st with fakeIx := st.fakeIx + 1 })

/-- One draw of error_rng.random(), as basis points in [0, 10000). -/
def nextError (st : GenState) : Nat × GenState :=
  (st.errorDraws st.errorIx % 10000, { st with errorIx := st.errorIx + 1 })

/-- random.randint(a, b), inclusive on both ends. -/
def randint (a b : Nat) (st : GenState) : Nat × GenState :=
  let (d, st) := nextStruct st
  (a + d % (b - a + 1), st)

/-- random.choice over a list (default on the empty list, which the
generator never hits). -/
def randChoice {α : Type} [Inhabited α] (l : List α) (st : GenState) : α × GenState :=
  let (d, st) := nextStruct st
  (l.getD (d % l.length) default, st)

/-- random.choices(l, k = n) with uniform weights: n independent draws. -/
def randChoices {α : Type} [Inhabited α] (l : List α) : Nat → GenState → List α × GenState
  | 0, st => ([], st)
  | n + 1, st =>
      let (x, st) := randChoice l st
      let (xs, st) := randChoices l n st
      (x :: xs, st)

/-- random.uniform(lo, hi) over the struct stream, discretised to 10000
steps. -/
def uniformQ (lo hi : ℚ) (st : GenState) : ℚ × GenState :=
  let (d, st) := nextStruct st
  (lo + (hi - lo) * ((d % 10000 : Nat) : ℚ) / 10000, st)

/-- A generated customer record as written to the daily parquet partition. -/
structure GenCustomer where
  customer_id : Nat
  customer_name : Option String
  email : Option String
  country : Option String
  signup_date : Nat
  customer_segment : String
deriving Repr, DecidableEq

instance : Inhabited GenCustomer :=
  ⟨{ customer_id := 0, customer_name := none, email := none, country := none,
     signup_date := 0, customer_segment := "" }⟩

/-- The customer segments constant. -/
def customerSegments : List String := ["Premium", "Standard", "Basic"]

/-- introduce_errors_customer: the lowercase-name draw is only taken when
the name is non-null (the Python and short-circuits), then the null-country
draw, then the invalid-email draw that rewrites the at-sign; every draw
comes from the error stream. -/
def introduceErrorsCustomer (cfg : GenConfig) (c : GenCustomer) (st : GenState) :
    GenCustomer × GenState :=
  let (c, st) :=
    match c.customer_name with
    | none => (c, st)
    | some nm =>
        let (e1, st) := nextError st
        (if e1 < cfg.lowercaseNameRate then
           { c with customer_name := some (pyLower nm) }
         else c, st)
  let (e2, st) := nextError st
  let c := if e2 < cfg.nullCountryRate then { c with country := none } else c
  let (e3, st) := nextError st
  let c :=
    if e3 < cfg.invalidEmailRate then
      { c with email := c.email.map replaceAtSign }
    else c
  (c, st)

/-- The while-loop that redraws a candidate email while it is already used,
for at most 1000 retries. -/
def retryEmail (used : List String) : Nat → String → GenState → String × GenState
  | 0, e, st => (e, st)
  | n + 1, e, st =>
      if e ∈ used then
        let (e2, st) := nextFake st
        retryEmail used n e2 st
      else (e, st)

/-- One base customer of generate_customers_for_day: a unique email with
retries and a deterministic fallback (fake.user_name()_id_day@domain), the
null-name defect decision from the error stream, faker name and country,
segment choice, then introduce_errors_customer. Returns the customer, the
updated used-email set and the random state. -/
def genBaseCustomer (cfg : GenConfig) (day cid : Nat) (used : List String)
    (st : GenState) : GenCustomer × List String × GenState :=
  let (e0, st) := nextFake st
  let (email, st) := retryEmail used 1000 e0 st
  let (email, st) :=
    if email ∈ used then
      let (un, st) := nextFake st
      let (dn, st) := nextFake st
      (un ++ "_" ++ toString cid ++ "_" ++ toString day ++ "@" ++ dn, st)
    else (email, st)
  let used := email :: used
  let (e1, st) := nextError st
  let (name, st) :=
    if e1 < cfg.nullNameRate then ((none : Option String), st)
    else
      let (nm, st) := nextFake st
      (some (pyTake 200 nm), st)
  let (co, st) := nextFake st
  let (seg, st) := randChoice customerSegments st
  let c : GenCustomer :=
    { customer_id := cid
      customer_name := name
      email := some (pyTake 200 email)
      country := some (pyTake 100 co)
      signup_date := day
      customer_segment := seg }
  let (c, st) := introduceErrorsCustomer cfg c st
  (c, used, st)

/-- The base-generation loop of generate_customers_for_day: ids are
start_customer_id + i, customers appended in order. -/
def genBaseLoop (cfg : GenConfig) (day startId : Nat) :
    Nat → Nat → List GenCustomer → List String → GenState →
      List GenCustomer × List String × GenState
  | 0, _, acc, used, st => (acc, used, st)
  | n + 1, i, acc, used, st =>
      let (c, used, st) := genBaseCustomer cfg day (startId + i) used st
      genBaseLoop cfg day startId n (i + 1) (acc ++ [c]) used st

/-- The while-loop bumping a candidate id past the used set; fuel
used.length + 1 always suffices and returns the Python result, the first
free id at or after the candidate. -/
def firstFreeId (used : List Nat) : Nat → Nat → Nat
  | 0, cand => cand
  | fuel + 1, cand => if cand ∈ used then firstFreeId used fuel (cand + 1) else cand

/-- The duplicate-person loop: pick a random existing customer from the
growing list, skip it if its name is null, otherwise mint a brand-new id
and email (with retries and the randint fallback) and append a copy sharing
name, country and segment, passed through introduce_errors_customer. -/
def genDupLoop (cfg : GenConfig) (day nextId : Nat) :
    Nat → Nat → List GenCustomer → List String → List Nat → GenState →
      List GenCustomer × List String × List Nat × GenState
  | 0, _, cs, used, ids, st => (cs, used, ids, st)
  | n + 1, i, cs, used, ids, st =>
      let (orig, st) := randChoice cs st
      match orig.customer_name with
      | none => genDupLoop cfg day nextId n (i + 1) cs used ids st
      | some _ =>
          let newId := firstFreeId ids (ids.length + 1) (nextId + i)
          let ids := newId :: ids
          let (e0, st) := nextFake st
          let (newEmail, st) := retryEmail used 1000 e0 st
          let (newEmail, st) :=
            if newEmail ∈ used then
              let (un, st) := nextFake st
              let (r, st) := randint 1000 9999 st
              let (dn, st) := nextFake st
              (un ++ "_" ++ toString newId ++ "_" ++ toString r ++ "@" ++ dn, st)
            else (newEmail, st)
          let used := newEmail :: used
          let dup : GenCustomer :=
            { customer_id := newId
              customer_name := orig.customer_name
              email := some (pyTake 200 newEmail)
              country := orig.country
              signup_date := day
              customer_segment := orig.customer_segment }
          let (dup, st) := introduceErrorsCustomer cfg dup st
          genDupLoop cfg day nextId n (i + 1) (cs ++ [dup]) used ids st

/-- The three end-of-day assertions of generate_customers_for_day: nunique
of customer_id equals the row count, nunique of email (which in pandas
skips nulls) equals the row count, and the null-email count is zero. -/
def dayBatchAsserts (cs : List GenCustomer) : Bool :=
  ((cs.map (fun c => c.customer_id)).dedup.length == cs.length) &&
  (((cs.map (fun c => c.email)).filterMap id).dedup.length == cs.length) &&
  ((cs.map (fun c => c.email)).countP (fun e => e.isNone) == 0)

/-- The tail of generate_customers_for_day: an empty frame skips the
assertion block, the assertions either pass (the batch is returned) or
raise. -/
def finalizeDayBatch (cs : List GenCustomer) (st : GenState) :
    Except String (List GenCustomer) × GenState :=
  if cs = [] then (.ok [], st)
  else if dayBatchAsserts cs then (.ok cs, st)
  else (.error "day batch assertion failed", st)

/-- generate_customers_for_day: a random count in CUSTOMERS_PER_DAY_RANGE =
(10, 50), the base loop against global_emails, the duplicate-person batch
of int(count * DUPLICATE_NAME_RATE) rows, then the assertions; a failing
assertion raises instead of returning the batch. -/
def generateCustomersForDay (cfg : GenConfig) (day startId : Nat)
    (globalEmails : List String) (st : GenState) :
    Except String (List GenCustomer) × GenState :=
  let (num, st) := randint 10 50 st
  let (cs, used, st) := genBaseLoop cfg day startId num 0 [] globalEmails st
  let baseIds := cs.map (fun c => c.customer_id)
  let numDups := cs.length * cfg.duplicateNameRate / 10000
  let (cs, st) :=
    if 0 < numDups ∧ cs ≠ [] then
      let (cs, _, _, st) := genDupLoop cfg day (startId + cs.length) numDups 0 cs used baseIds st
      (cs, st)
    else (cs, st)
  finalizeDayBatch cs st

/-- A generated product record. -/
structure GenProduct where
  product_id : Nat
  product_name : String
  category : String
  price : ℚ
  cost : ℚ
deriving Repr, DecidableEq

instance : Inhabited GenProduct :=
  ⟨{ product_id := 0, product_name := "", category := "", price := 0, cost := 0 }⟩

/-- The category constant. -/
def categories : List String :=
  ["Electronics", "Clothing", "Food", "Books", "Home", "Sports", "Toys"]

/-- The loop of generate_products_master: cost uniform(10, 500) rounded,
price cost * uniform(1.3, 2.5) rounded, a faker catch-phrase name and a
random category, product ids 1 to 100. -/
def genProductsLoop : Nat → Nat → List GenProduct → GenState → List GenProduct × GenState
  | 0, _, acc, st => (acc, st)
  | n + 1, pid, acc, st =>
      let (u1, st) := uniformQ 10 500 st
      let cost := round2 u1
      let (u2, st) := uniformQ (13 / 10) (25 / 10) st
      let price := round2 (cost * u2)
      let (nm, st) := nextFake st
      let (cat, st) := randChoice categories st
      genProductsLoop n (pid + 1)
        (acc ++ [{ product_id := pid, product_name := pyTake 200 nm, category := cat,
                   price := price, cost := cost }]) st

/-- generate_products_master: the 100-product catalog, generated once. -/
def generateProductsMaster (st : GenState) : List GenProduct × GenState :=
  genProductsLoop 100 1 [] st

/-- introduce_errors_product: the lowercase-name defect from the error
stream. -/
def introduceErrorsProduct (cfg : GenConfig) (p : GenProduct) (st : GenState) :
    GenProduct × GenState :=
  let (e, st) := nextError st
  (if e < cfg.lowercaseNameRate then
     { p with product_name := pyLower p.product_name }
   else p, st)

/-- The per-row error pass generate_all_data applies over the product
catalog. -/
def applyProductErrors (cfg : GenConfig) : List GenProduct → GenState →
    List GenProduct × GenState
  | [], st => ([], st)
  | p :: ps, st =>
      let (p, st) := introduceErrorsProduct cfg p st
      let (ps, st) := applyProductErrors cfg ps st
      (p :: ps, st)

/-- A generated order record. -/
structure GenOrder where
  order_id : Nat
  customer_id : Nat
  order_date : Nat
  order_status : String
  total_amount : ℚ
deriving Repr, DecidableEq

instance : Inhabited GenOrder :=
  ⟨{ order_id := 0, customer_id := 0, order_date := 0, order_status := "",
     total_amount := 0 }⟩

/-- A generated order-item record. -/
structure GenOrderItem where
  order_item_id : Nat
  order_id : Nat
  product_id : Nat
  quantity : Nat
  unit_price : ℚ
  discount_percent : Nat
deriving Repr, DecidableEq

instance : Inhabited GenOrderItem :=
  ⟨{ order_item_id := 0, order_id := 0, product_id := 0, quantity := 0,
     unit_price := 0, discount_percent := 0 }⟩

/-- random.choices(ORDER_STATUSES, weights = [0.7, 0.15, 0.1, 0.05]): one
draw mapped through the cumulative weights. -/
def drawStatus (st : GenState) : String × GenState :=
  let (d, st) := nextStruct st
  let r := d % 10000
  (if r < 7000 then "completed"
   else if r < 8500 then "pending"
   else if r < 9500 then "cancelled"
   else "returned", st)

/-- The per-order item loop: a random product, quantity 1 to 5, a discount
from the fixed set, line total accumulated into the order total. -/
def genItemsLoop (products : List GenProduct) (oid : Nat) :
    Nat → Nat → ℚ → List GenOrderItem → GenState →
      List GenOrderItem × ℚ × Nat × GenState
  | 0, itemId, total, acc, st => (acc, total, itemId, st)
  | n + 1, itemId, total, acc, st =>
      let (p, st) := randChoice products st
      let (q, st) := randint 1 5 st
      let unitPrice := p.price
      let (disc, st) := randChoice ([0, 5, 10, 15, 20] : List Nat) st
      let lineTotal := (q : ℚ) * unitPrice * (1 - (disc : ℚ) / 100)
      genItemsLoop products oid n (itemId + 1) (total + lineTotal)
        (acc ++ [{ order_item_id := itemId, order_id := oid, product_id := p.product_id,
                   quantity := q, unit_price := unitPrice, discount_percent := disc }]) st

/-- The order loop of generate_orders_for_day: ids start_order_id + i, a
uniformly-chosen existing customer, a weighted status, 1 to 5 items, the
order total rounded to 2 decimals. -/
def genOrdersLoop (products : List GenProduct) (day startOrderId : Nat)
    (customerIds : List Nat) :
    Nat → Nat → Nat → List GenOrder → List GenOrderItem → GenState →
      List GenOrder × List GenOrderItem × GenState
  | 0, _, _, os, its, st => (os, its, st)
  | n + 1, i, itemId, os, its, st =>
      let oid := startOrderId + i
      let (cid, st) := randChoice customerIds st
      let (status, st) := drawStatus st
      let (numItems, st) := randint 1 5 st
      let (newItems, total, itemId, st) := genItemsLoop products oid numItems itemId 0 [] st
      genOrdersLoop products day startOrderId customerIds n (i + 1) itemId
        (os ++ [{ order_id := oid, customer_id := cid, order_date := day,
                  order_status := status, total_amount := round2 total }])
        (its ++ newItems) st

/-- generate_orders_for_day: empty on no customers; otherwise a random
count in ORDERS_PER_DAY_RANGE = (100, 500), item ids from start_order_id *
10, then 4 percent of whole orders and whole items duplicated verbatim. -/
def generateOrdersForDay (day startOrderId : Nat) (customerIds : List Nat)
    (products : List GenProduct) (st : GenState) :
    List GenOrder × List GenOrderItem × GenState :=
  if customerIds = [] then ([], [], st)
  else
    let (numOrders, st) := randint 100 500 st
    let (os, its, st) :=
      genOrdersLoop products day startOrderId customerIds numOrders 0
        (startOrderId * 10) [] [] st
    let numDupOrders := os.length * 4 / 100
    let (os, st) :=
      if 0 < numDupOrders then
        let (dups, st) := randChoices os numDupOrders st
        (os ++ dups, st)
      else (os, st)
    let numDupItems := its.length * 4 / 100
    let (its, st) :=
      if 0 < numDupItems then
        let (dups, st) := randChoices its numDupItems st
        (its ++ dups, st)
      else (its, st)
    (os, its, st)

/-- The daily partitioned output of generate_all_data: one table per
(entity, day). -/
structure GenOutput where
  customersByDay : List (Nat × List GenCustomer)
  productsByDay : List (Nat × List GenProduct)
  ordersByDay : List (Nat × List GenOrder)
  orderItemsByDay : List (Nat × List GenOrderItem)
deriving Repr, DecidableEq

/-- The day loop of generate_all_data: customers for the day (tracking the
global email set, the id counter and the known customer ids), the product
catalog saved unchanged every day, then orders from the second day on. A
failed customer assertion aborts the run. -/
def genDayLoop (cfg : GenConfig) (products : List GenProduct) (startDay : Nat) :
    List Nat → Nat → Nat → List Nat → List String → GenOutput → GenState →
      Except String GenOutput × GenState
  | [], _, _, _, _, out, st => (.ok out, st)
  | day :: days, curCid, curOid, allIds, allEmails, out, st =>
      match generateCustomersForDay cfg day curCid allEmails st with
      | (.error msg, st) => (.error msg, st)
      | (.ok cs, st) =>
          let curCid' := if cs = [] then curCid else curCid + cs.length
          let allIds' :=
            if cs = [] then allIds
            else allIds ++ (cs.map (fun c => c.customer_id)).dedup
          let newEmails := ((cs.map (fun c => c.email)).filterMap id).dedup
          let allEmails' :=
            if cs = [] then allEmails
            else allEmails ++ newEmails.filter (fun e => e ∉ allEmails)
          let out :=
            if cs = [] then out
            else { out with customersByDay := out.customersByDay ++ [(day, cs)] }
          let out := { out with productsByDay := out.productsByDay ++ [(day, products)] }
          let (curOid', out, st) :=
            if allIds' ≠ [] ∧ startDay + 1 ≤ day then
              let (os, its, st) := generateOrdersForDay day curOid allIds' products st
              if os = [] then (curOid, out, st)
              else
                (curOid + os.length,
                 { out with
                     ordersByDay := out.ordersByDay ++ [(day, os)]
                     orderItemsByDay := out.orderItemsByDay ++ [(day, its)] }, st)
            else (curOid, out, st)
          genDayLoop cfg products startDay days curCid' curOid' allIds' allEmails' out st

/-- The module constant RANDOM_SEED. -/
def RANDOM_SEED : Nat := 42

/-- A linear congruential step standing in for the seeded Mersenne Twister:
each stream is a pure function of its seed. -/
def lcg (s : Nat) : Nat := (s * 6364136223846793005 + 1442695040888963407) % 2 ^ 64

/-- Iterated LCG draws. -/
def lcgIter (seed : Nat) : Nat → Nat
  | 0 => lcg seed
  | n + 1 => lcg (lcgIter seed n)

/-- The random state as seeded at the top of a generator run:
random.seed(seed) and Faker.seed(seed) give the structural and faker
streams, random.Random(seed + 1) gives the error stream. -/
def mkGenState (seed : Nat) : GenState :=
  { structDraws := fun n => lcgIter (2 * seed) n
    structIx := 0
    fakeDraws := fun n => "fk" ++ toString (lcgIter (2 * seed + 1) n % 1000000)
    fakeIx := 0
    errorDraws := fun n => lcgIter (seed + 1) n
    errorIx := 0 }

/-- generate_all_data for numDays days starting at day 0 (START_DATE),
seeded from scratch exactly as a fresh process run does: product catalog
once, the per-catalog error pass, then the day loop with id counters
starting at 1. -/
def generateAllData (seed : Nat) (numDays : Nat) : Except String GenOutput :=
  let st := mkGenState seed
  let startDay := 0
  let days := (List.range numDays).map (fun i => startDay + i)
  let (products, st) := generateProductsMaster st
  let (products, st) := applyProductErrors defaultGenConfig products st
  (genDayLoop defaultGenConfig products startDay days 1 1 [] [] ⟨[], [], [], []⟩ st).1

/-! ## Concrete fixtures used by the witnesses and counterexamples -/

/-- An empty staging schema, the state before the first staging run. -/
def emptyStaging : StagingDB :=
  { customers := [], products := [], orders := [], order_items := [] }

/-- A small raw layer: a duplicated customer row, a customer with an
invalid email, one product, one order with a valid customer and one orphan
order, one valid item and one orphan item. -/
def rawW : RawDB :=
  { customers :=
      [ { customer_id := some 1, customer_name := some "john doe",
          email := some "john@ex.com", country := none, signup_date := some 10,
          customer_segment := none },
        { customer_id := some 1, customer_name := some "john doe",
          email := some "john@ex.com", country := none, signup_date := some 10,
          customer_segment := none },
        { customer_id := some 2, customer_name := some "ann", email := some "bad-email",
          country := some "France", signup_date := some 10,
          customer_segment := some "Premium" } ]
    products :=
      [ { product_id := some 1, product_name := some "widget", category := some "Toys",
          price := some 5, cost := some 2 } ]
    orders :=
      [ { order_id := some 1, customer_id := some 1, order_date := some 11,
          order_status := some "completed", total_amount := some 10 },
        { order_id := some 2, customer_id := some 99, order_date := some 11,
          order_status := some "completed", total_amount := some 10 } ]
    order_items :=
      [ { order_item_id := some 1, order_id := some 1, product_id := some 1,
          quantity := some 2, unit_price := some 5, discount_percent := some 0 },
        { order_item_id := some 2, order_id := some 77, product_id := some 1,
          quantity := some 2, unit_price := some 5, discount_percent := some 0 } ] }

/-- The surviving staged order of rawW under a staging run at time 5. -/
def wOrd : Stamped OrderRow :=
  { data := { order_id := 1, customer_id := 1, order_date := 11,
              order_status := "completed", total_amount := 10 }
    created_at := 5
    updated_at := 5 }

/-- The surviving staged order item of rawW under a staging run at time 5. -/
def wItem : StampedC OrderItemRow :=
  { data := { order_item_id := 1, order_id := 1, product_id := 1, quantity := 2,
              unit_price := 5, discount_percent := 0 }
    created_at := 5 }

/-- A one-column frame for the missing-column probes. -/
def vfW : VFrame := { cols := [("a", [VCell.num 1])] }

/-- A frame whose email column holds a single null cell. -/
def vfNullW : VFrame := { cols := [("email", [VCell.null])] }

/-- Cells with one valid email, one null and one non-matching string. -/
def cellsMixedW : List VCell :=
  [VCell.str "a@b.com", VCell.null, VCell.str "bad"]

/-- A frame over cellsMixedW. -/
def vfMixedW : VFrame := { cols := [("email", cellsMixedW)] }

/-- A partition store whose first partition raises on read and whose other
partitions read fine. -/
def storeErrW : PartitionStore Nat := fun d =>
  if d = "2025-01-01" then .readError "boom" else .table [7]

/-- A partition store with one missing partition directory and one
readable partition. -/
def storeMissW : PartitionStore Nat := fun d =>
  if d = "2025-01-01" then .missing else .table [1, 2]

/-- A staged customer with no orders at all. -/
def wCust9 : CustomerRow :=
  { customer_id := 9, customer_name := "Zoe", email := "zoe@e.co",
    country := "Unknown", signup_date := 3, customer_segment := "Basic" }

/-- The customer-metrics row the aggregation produces for wCust9 when the
staging orders and items are empty, at today = 100 and now = 7. -/
def wMetric9 : CustomerMetricRow :=
  { customer_id := 9, customer_name := "Zoe", customer_segment := "Basic",
    first_order_date := none, last_order_date := none, total_orders := 0,
    total_items := 0, total_revenue := 0, avg_order_value := 0,
    days_since_first_order := none, days_since_last_order := none,
    created_at := 7, updated_at := 7 }

/-- Concrete generator streams: structural draws all 0 (so 10 customers a
day and the first list element on every choice), fresh short faker strings,
and error draws of 9999 basis points, below no default defect rate. -/
def wGenState : GenState :=
  { structDraws := fun _ => 0
    structIx := 0
    fakeDraws := fun n => "w" ++ toString n
    fakeIx := 0
    errorDraws := fun _ => 9999
    errorIx := 0 }

/-- The day batch generated from wGenState under the default rates. -/
def wDayBatch : List GenCustomer :=
  match (generateCustomersForDay defaultGenConfig 0 1 [] wGenState).1 with
  | .ok cs => cs
  | .error _ => []

/-- The default configuration with the null-name defect rate turned off. -/
def cfgNoNullNames : GenConfig := { defaultGenConfig with nullNameRate := 0 }

/-- The default configuration with the null-name defect rate at certainty. -/
def cfgAllNullNames : GenConfig := { defaultGenConfig with nullNameRate := 10000 }

/-- The day batch generated from wGenState with the null-name rate off. -/
def runNoNullNames : List GenCustomer :=
  match (generateCustomersForDay cfgNoNullNames 0 1 [] wGenState).1 with
  | .ok cs => cs
  | .error _ => []

/-- The day batch generated from wGenState with the null-name rate at
certainty; the streams and every other rate agree with runNoNullNames. -/
def runAllNullNames : List GenCustomer :=
  match (generateCustomersForDay cfgAllNullNames 0 1 [] wGenState).1 with
  | .ok cs => cs
  | .error _ => []

end ETL

deriving instance DecidableEq for Except

namespace ETL

set_option maxRecDepth 100000

/-! ## Helper lemmas -/

/-- If deduplication does not shrink a list, the list has no duplicates. -/
theorem nodup_of_dedup_length {α : Type} [DecidableEq α] {l : List α}
    (h : l.dedup.length = l.length) : l.Nodup := by
  have hsub := List.dedup_sublist l
  have heq := hsub.eq_of_length h
  have := List.nodup_dedup l
  rwa [heq] at this

/-- A list of options with no none entry is the some-image of its
filterMap. -/
theorem eq_map_some_of_no_none {α : Type} {l : List (Option α)}
    (h : l.countP (fun e => e.isNone) = 0) : l = (l.filterMap id).map some := by
  induction l with
  | nil => rfl
  | cons a t ih =>
      cases a with
      | none => simp [List.countP_cons] at h
      | some x =>
          have ht : t.countP (fun e => e.isNone) = 0 := by
            simpa [List.countP_cons] using h
          simpa [List.filterMap_cons] using ih ht

/-! ## Claim theorems -/

/-- C4: generating the same date range twice with the same seed yields
identical customer, order and order-item tables: generateAllData is a pure
function of the seed, since every random draw comes from the streams
mkGenState builds from the seed alone. -/
theorem generator_same_seed_same_output (s₁ s₂ numDays : Nat) (h : s₁ = s₂) :
    generateAllData s₁ numDays = generateAllData s₂ numDays := by rw [h]

/-- Witness for C4 at the shipped seed and the 3-day test mode. -/
theorem generator_same_seed_same_output_witness :
    generateAllData RANDOM_SEED 3 = generateAllData RANDOM_SEED 3 :=
  generator_same_seed_same_output RANDOM_SEED RANDOM_SEED 3 rfl

/-- C5 (counterexample): two generator runs over identical streams whose
configurations differ only in the null-name defect rate produce different
base data: the second generated customer gets a different email, because a
nulled name skips the fake.name() draw and shifts every later faker draw. -/
theorem defect_rate_change_perturbs_base_data :
    cfgNoNullNames.duplicateNameRate = cfgAllNullNames.duplicateNameRate ∧
    cfgNoNullNames.nullCountryRate = cfgAllNullNames.nullCountryRate ∧
    cfgNoNullNames.lowercaseNameRate = cfgAllNullNames.lowercaseNameRate ∧
    cfgNoNullNames.invalidEmailRate = cfgAllNullNames.invalidEmailRate ∧
    (runNoNullNames.map (fun c => c.email)).getD 1 none ≠
      (runAllNullNames.map (fun c => c.email)).getD 1 none := by decide

/-- C5 (amended): the defect injection of introduce_errors_customer draws
only from the dedicated error stream: it never advances the structural or
faker cursors and never changes those streams, so the split into two
streams is real even though defect outcomes still gate which faker draws
the surrounding generation performs. -/
theorem defect_draws_leave_structural_streams (cfg : GenConfig) (c : GenCustomer)
    (st : GenState) :
    (introduceErrorsCustomer cfg c st).2.structIx = st.structIx ∧
    (introduceErrorsCustomer cfg c st).2.fakeIx = st.fakeIx ∧
    (introduceErrorsCustomer cfg c st).2.structDraws = st.structDraws ∧
    (introduceErrorsCustomer cfg c st).2.fakeDraws = st.fakeDraws := by
  unfold introduceErrorsCustomer nextError
  cases c.customer_name <;> simp

/-- C6 (counterexample): the rule methods do not handle a missing column
uniformly: on the same frame and the same absent column, check_no_nulls
appends a FAIL result while check_unique appends nothing. -/
theorem missing_column_behavior_inconsistent :
    checkUnique vfW ["missing_col"] = [] ∧
    checkNoNulls vfW ["missing_col"] ≠ [] ∧
    (checkNoNulls vfW ["missing_col"]).all (fun r => !r.passed) = true := by decide

/-- C6 (amended): when a referenced column does not exist, check_no_nulls
records a FAIL result naming the column, while check_unique and
check_value_range silently no-op; the behavior differs between rule
methods. -/
theorem missing_column_fail_vs_noop (df : VFrame) (col : String)
    (minV maxV : Option ℚ) (h : df.column col = none) :
    checkNoNulls df [col] =
      [{ rule_name := "no_nulls_" ++ col
         passed := false
         message := "Column " ++ col ++ " not found in dataset"
         failed_rows := 0 }] ∧
    checkUnique df [col] = [] ∧
    checkValueRange df col minV maxV = [] := by
  refine ⟨?_, ?_, ?_⟩ <;> simp [checkNoNulls, checkUnique, checkValueRange, h]

/-- Witness for C6 (amended) at a concrete frame without the column. -/
theorem missing_column_fail_vs_noop_witness :
    checkUnique vfW ["missing_col"] = [] ∧
    checkValueRange vfW "missing_col" none none = [] :=
  ⟨(missing_column_fail_vs_noop vfW "missing_col" none none (by decide)).2.1,
   (missing_column_fail_vs_noop vfW "missing_col" none none (by decide)).2.2⟩

/-- C7 (counterexample): the regex rule does not skip nulls: on a column
holding a single null cell, check_email_format reports 1 failed row even
though the number of non-null non-matching values is 0 (astype(str) has
turned the null into the string nan before matching). -/
theorem regex_rule_counts_null_as_failure :
    (checkEmailFormat vfNullW "email").map (fun r => r.failed_rows) = [1] ∧
    [VCell.null].countP (fun c => !c.isNull && !(validEmail c.pyStr)) = 0 := by decide

/-- C7 (amended): check_regex_pattern stringifies every cell (a null
becomes the string nan) and its failed-row count is the number of cells
whose string form does not match the pattern; the rule fails exactly when
that count is nonzero. Nulls therefore count as failures whenever the
pattern rejects their string form. -/
theorem regex_rule_counts_stringified_cells (df : VFrame) (col : String)
    (pat : String → Bool) (pname : String) (cells : List VCell)
    (h : df.column col = some cells) :
    (checkRegexPattern df col pat pname).map (fun r => r.failed_rows) =
      [cells.countP (fun c => !(pat c.pyStr))] ∧
    (checkRegexPattern df col pat pname).map (fun r => r.passed) =
      [cells.countP (fun c => !(pat c.pyStr)) == 0] := by
  constructor <;> simp [checkRegexPattern, h]

/-- Witness for C7 (amended): on a column with one valid email, one null
and one malformed string, the email preset fails 2 rows. -/
theorem regex_rule_counts_stringified_cells_witness :
    (checkRegexPattern vfMixedW "email" validEmail "email_format").map
      (fun r => r.failed_rows) = [2] :=
  ((regex_rule_counts_stringified_cells vfMixedW "email" validEmail "email_format"
      cellsMixedW (by decide)).1).trans (by decide)

/-- C8 (counterexample): a read error on one partition aborts the whole
table ingestion: with the first of two partitions raising on read,
ingest_table propagates the exception instead of processing the second
partition and returning a summary. -/
theorem partition_read_error_aborts_ingestion :
    ingestTable storeErrW "orders" ["2025-01-01", "2025-01-02"] (Except.ok [])
      true 0 = Except.error "boom" := by decide

/-- C8 (amended): only a missing partition file is tolerated: when no
selected partition read raises (each is either missing or readable), the
ingestion loop runs to completion; an actual read exception aborts the
remaining partitions, as the counterexample shows. -/
theorem missing_partition_does_not_abort {ρ : Type} (store : PartitionStore ρ)
    (tableName : String) (now : Nat) (dates : List String)
    (h : ∀ d ∈ dates, (store d).isError = false) :
    (ingestDates store tableName now dates).isOk = true := by
  induction dates with
  | nil => rfl
  | cons d ds ih =>
      have hd := h d (by simp)
      have hds := ih (fun x hx => h x (List.mem_cons_of_mem d hx))
      unfold ingestDates ingestPartition
      cases hst : store d with
      | missing =>
          cases hrec : ingestDates store tableName now ds with
          | error msg => rw [hrec] at hds; simp [Except.isOk, Except.toBool] at hds
          | ok t => simp [hrec, Except.isOk, Except.toBool, Except.map]
      | readError msg => rw [hst] at hd; simp [PartitionRead.isError] at hd
      | table rows =>
          cases hrec : ingestDates store tableName now ds with
          | error msg => rw [hrec] at hds; simp [Except.isOk, Except.toBool] at hds
          | ok t =>
              by_cases hrows : rows.isEmpty <;>
                simp [hrows, hrec, Except.isOk, Except.toBool, Except.map]

/-- Witness for C8 (amended): one missing partition, one readable one, and
the loop returns a summary. -/
theorem missing_partition_does_not_abort_witness :
    (ingestDates storeMissW "orders" 0 ["2025-01-01", "2025-01-02"]).isOk = true :=
  missing_partition_does_not_abort storeMissW "orders" 0 ["2025-01-01", "2025-01-02"]
    (by decide)

/-- The customers step leaves the other staging tables alone. -/
theorem transformCustomers_products (raw : RawDB) (now : Nat) (st : StagingDB) :
    (transformCustomers raw now st).products = st.products := by
  unfold transformCustomers; split <;> rfl

/-- The customers step leaves the orders table alone. -/
theorem transformCustomers_orders (raw : RawDB) (now : Nat) (st : StagingDB) :
    (transformCustomers raw now st).orders = st.orders := by
  unfold transformCustomers; split <;> rfl

/-- The customers step leaves the order_items table alone. -/
theorem transformCustomers_order_items (raw : RawDB) (now : Nat) (st : StagingDB) :
    (transformCustomers raw now st).order_items = st.order_items := by
  unfold transformCustomers; split <;> rfl

/-- What the customers step writes. -/
theorem transformCustomers_customers (raw : RawDB) (now : Nat) (st : StagingDB) :
    (transformCustomers raw now st).customers =
      if raw.customers = [] then st.customers
      else (stageCustomersRows raw.customers).map (fun d => ⟨d, now, now⟩) := by
  unfold transformCustomers; split <;> rfl

/-- The products step leaves the customers table alone. -/
theorem transformProducts_customers (raw : RawDB) (now : Nat) (st : StagingDB) :
    (transformProducts raw now st).customers = st.customers := by
  unfold transformProducts; split <;> rfl

/-- The products step leaves the orders table alone. -/
theorem transformProducts_orders (raw : RawDB) (now : Nat) (st : StagingDB) :
    (transformProducts raw now st).orders = st.orders := by
  unfold transformProducts; split <;> rfl

/-- The products step leaves the order_items table alone. -/
theorem transformProducts_order_items (raw : RawDB) (now : Nat) (st : StagingDB) :
    (transformProducts raw now st).order_items = st.order_items := by
  unfold transformProducts; split <;> rfl

/-- What the products step writes. -/
theorem transformProducts_products (raw : RawDB) (now : Nat) (st : StagingDB) :
    (transformProducts raw now st).products =
      if raw.products = [] then st.products
      else (stageProductsRows raw.products).map (fun d => ⟨d, now, now⟩) := by
  unfold transformProducts; split <;> rfl

/-- The orders step leaves the customers table alone. -/
theorem transformOrders_customers (raw : RawDB) (now : Nat) (st : StagingDB) :
    (transformOrders raw now st).customers = st.customers := by
  unfold transformOrders; split <;> rfl

/-- The orders step leaves the products table alone. -/
theorem transformOrders_products (raw : RawDB) (now : Nat) (st : StagingDB) :
    (transformOrders raw now st).products = st.products := by
  unfold transformOrders; split <;> rfl

/-- The orders step leaves the order_items table alone. -/
theorem transformOrders_order_items (raw : RawDB) (now : Nat) (st : StagingDB) :
    (transformOrders raw now st).order_items = st.order_items := by
  unfold transformOrders; split <;> rfl

/-- What the orders step writes: the referential filter reads the staged
customers of the incoming state. -/
theorem transformOrders_orders (raw : RawDB) (now : Nat) (st : StagingDB) :
    (transformOrders raw now st).orders =
      if raw.orders = [] then st.orders
      else (stageOrdersRows raw.orders
              (st.customers.map (fun c => c.data.customer_id))).map (fun d => ⟨d, now, now⟩) := by
  unfold transformOrders; split <;> rfl

/-- The order_items step leaves the customers table alone. -/
theorem transformOrderItems_customers (raw : RawDB) (now : Nat) (st : StagingDB) :
    (transformOrderItems raw now st).customers = st.customers := by
  unfold transformOrderItems; split <;> rfl

/-- The order_items step leaves the products table alone. -/
theorem transformOrderItems_products (raw : RawDB) (now : Nat) (st : StagingDB) :
    (transformOrderItems raw now st).products = st.products := by
  unfold transformOrderItems; split <;> rfl

/-- The order_items step leaves the orders table alone. -/
theorem transformOrderItems_orders (raw : RawDB) (now : Nat) (st : StagingDB) :
    (transformOrderItems raw now st).orders = st.orders := by
  unfold transformOrderItems; split <;> rfl

/-- What the order_items step writes: the referential filters read the
staged orders and products of the incoming state. -/
theorem transformOrderItems_order_items (raw : RawDB) (now : Nat) (st : StagingDB) :
    (transformOrderItems raw now st).order_items =
      if raw.order_items = [] then st.order_items
      else (stageOrderItemsRows raw.order_items
              (st.orders.map (fun o => o.data.order_id))
              (st.products.map (fun p => p.data.product_id))).map (fun d => ⟨d, now⟩) := by
  unfold transformOrderItems; split <;> rfl

/-- Every order surviving the staging row pipeline carries a customer_id
from the valid-customer list it was filtered against. -/
theorem stageOrdersRows_customer_mem (raw : List RawOrder) (ids : List Int) :
    ∀ o ∈ stageOrdersRows raw ids, o.customer_id ∈ ids := by
  intro o ho
  unfold stageOrdersRows at ho
  simp only [List.mem_map, List.mem_filter] at ho
  obtain ⟨r, ⟨⟨⟨⟨hr1, hmem⟩, hstat⟩, hamt⟩, hsome⟩, rfl⟩ := ho
  unfold optMem at hmem
  cases hcid : r.customer_id with
  | none => rw [hcid] at hmem; exact absurd hmem (by simp)
  | some v =>
      rw [hcid] at hmem
      simp only [decide_eq_true_eq] at hmem
      simpa [hcid] using hmem

/-- Every order item surviving the staging row pipeline carries an
order_id and a product_id from the lists it was filtered against. -/
theorem stageOrderItemsRows_fk_mem (raw : List RawOrderItem) (oids pids : List Int) :
    ∀ it ∈ stageOrderItemsRows raw oids pids,
      it.order_id ∈ oids ∧ it.product_id ∈ pids := by
  intro it hit
  unfold stageOrderItemsRows at hit
  simp only [List.mem_map, List.mem_filter] at hit
  obtain ⟨r, ⟨⟨⟨⟨⟨hr1, homem⟩, hpmem⟩, hqty⟩, hdisc⟩, hsome⟩, rfl⟩ := hit
  unfold optMem at homem hpmem
  constructor
  · cases hoid : r.order_id with
    | none => rw [hoid] at homem; exact absurd homem (by simp)
    | some v =>
        rw [hoid] at homem
        simp only [decide_eq_true_eq] at homem
        simpa [hoid] using homem
  · cases hpid : r.product_id with
    | none => rw [hpid] at hpmem; exact absurd hpmem (by simp)
    | some v =>
        rw [hpid] at hpmem
        simp only [decide_eq_true_eq] at hpmem
        simpa [hpid] using hpmem

/-- C1: after a staging run, every order written to staging has a
customer_id present in the staging customers table as the run left it, and
every order item written has an order_id in staging orders and a product_id
in staging products; referential violations are dropped by the filters of a
total function, never raised. -/
theorem staging_referential_closure (raw : RawDB) (now : Nat) (st0 : StagingDB) :
    (raw.orders ≠ [] → ∀ o ∈ (transformAll raw now st0).orders,
       o.data.customer_id ∈
         (transformAll raw now st0).customers.map (fun c => c.data.customer_id)) ∧
    (raw.order_items ≠ [] → ∀ it ∈ (transformAll raw now st0).order_items,
       it.data.order_id ∈
         (transformAll raw now st0).orders.map (fun o => o.data.order_id) ∧
       it.data.product_id ∈
         (transformAll raw now st0).products.map (fun p => p.data.product_id)) := by
  unfold transformAll
  set st1 := transformCustomers raw now st0 with hst1
  set st2 := transformProducts raw now st1 with hst2
  set st3 := transformOrders raw now st2 with hst3
  constructor
  · intro hne o ho
    rw [transformOrderItems_orders, transformOrders_orders, if_neg hne] at ho
    rw [transformOrderItems_customers, transformOrders_customers]
    obtain ⟨d, hd, rfl⟩ := List.mem_map.mp ho
    exact stageOrdersRows_customer_mem raw.orders _ d hd
  · intro hne it hit
    rw [transformOrderItems_order_items, if_neg hne] at hit
    rw [transformOrderItems_orders, transformOrderItems_products]
    obtain ⟨d, hd, rfl⟩ := List.mem_map.mp hit
    exact stageOrderItemsRows_fk_mem raw.order_items _ _ d hd

/-- Witness for C1: in the staged fixture, the surviving order points at
customer 1, which is in the staged customers, and the surviving item points
at order 1 and product 1. -/
theorem staging_referential_closure_witness :
    (1 : Int) ∈ (transformAll rawW 5 emptyStaging).customers.map
      (fun c => c.data.customer_id) ∧
    ((1 : Int) ∈ (transformAll rawW 5 emptyStaging).orders.map
        (fun o => o.data.order_id) ∧
     (1 : Int) ∈ (transformAll rawW 5 emptyStaging).products.map
        (fun p => p.data.product_id)) :=
  ⟨(staging_referential_closure rawW 5 emptyStaging).1 (by decide) wOrd (by decide),
   (staging_referential_closure rawW 5 emptyStaging).2 (by decide) wItem (by decide)⟩

/-- Two staging views with equal fields are equal. -/
theorem stagingView_eq (a b : StagingView) (hc : a.customers = b.customers)
    (hp : a.products = b.products) (ho : a.orders = b.orders)
    (hi : a.order_items = b.order_items) : a = b := by
  cases a; cases b; simp_all

/-- The staged customer business columns after a run: unchanged on empty
raw, otherwise a pure function of the raw customers. -/
theorem businessView_transformAll_customers (raw : RawDB) (now : Nat) (st : StagingDB) :
    (businessView (transformAll raw now st)).customers =
      if raw.customers = [] then (businessView st).customers
      else stageCustomersRows raw.customers := by
  unfold businessView transformAll
  rw [transformOrderItems_customers, transformOrders_customers,
    transformProducts_customers, transformCustomers_customers]
  split
  · rfl
  · simp [List.map_map, Function.comp_def]

/-- The staged product business columns after a run. -/
theorem businessView_transformAll_products (raw : RawDB) (now : Nat) (st : StagingDB) :
    (businessView (transformAll raw now st)).products =
      if raw.products = [] then (businessView st).products
      else stageProductsRows raw.products := by
  unfold businessView transformAll
  rw [transformOrderItems_products, transformOrders_products,
    transformProducts_products, transformCustomers_products]
  split
  · rfl
  · simp [List.map_map, Function.comp_def]

/-- The staged order business columns after a run: unchanged on empty raw,
otherwise a pure function of the raw orders and of the staged customers the
same run leaves behind. -/
theorem businessView_transformAll_orders (raw : RawDB) (now : Nat) (st : StagingDB) :
    (businessView (transformAll raw now st)).orders =
      if raw.orders = [] then (businessView st).orders
      else stageOrdersRows raw.orders
        ((businessView (transformAll raw now st)).customers.map (fun c => c.customer_id)) := by
  unfold businessView transformAll
  rw [transformOrderItems_orders, transformOrders_orders,
    transformOrderItems_customers, transformOrders_customers]
  rw [transformProducts_orders, transformCustomers_orders]
  split
  · rfl
  · simp [List.map_map, Function.comp_def]

/-- The staged order-item business columns after a run: unchanged on empty
raw, otherwise a pure function of the raw items and of the staged orders
and products the same run leaves behind. -/
theorem businessView_transformAll_order_items (raw : RawDB) (now : Nat) (st : StagingDB) :
    (businessView (transformAll raw now st)).order_items =
      if raw.order_items = [] then (businessView st).order_items
      else stageOrderItemsRows raw.order_items
        ((businessView (transformAll raw now st)).orders.map (fun o => o.order_id))
        ((businessView (transformAll raw now st)).products.map (fun p => p.product_id)) := by
  unfold businessView transformAll
  rw [transformOrderItems_order_items, transformOrderItems_orders,
    transformOrderItems_products]
  rw [transformOrders_order_items, transformProducts_order_items,
    transformCustomers_order_items]
  split
  · rfl
  · simp [List.map_map, Function.comp_def]

/-- C2 (counterexample): running the staging transformation twice on the
same raw layer does not reproduce identical staging table contents: the
created_at / updated_at columns hold the wall-clock time of each run, so a
second run at a later time rewrites them. -/
theorem staging_rerun_changes_timestamps :
    transformAll rawW 1 (transformAll rawW 0 emptyStaging) ≠
      transformAll rawW 0 emptyStaging := by decide

/-- C2 (amended): staging is idempotent on every business column: for a
fixed raw layer, a second staging run (at any wall-clock time) reproduces
the first run's staging tables exactly, up to the created_at / updated_at
audit timestamp columns. -/
theorem staging_rerun_business_columns_idempotent (raw : RawDB) (now1 now2 : Nat)
    (st0 : StagingDB) :
    businessView (transformAll raw now2 (transformAll raw now1 st0)) =
      businessView (transformAll raw now1 st0) := by
  have hc : (businessView (transformAll raw now2 (transformAll raw now1 st0))).customers =
      (businessView (transformAll raw now1 st0)).customers := by
    rw [businessView_transformAll_customers]
    by_cases h : raw.customers = []
    · rw [if_pos h]
    · rw [if_neg h, businessView_transformAll_customers, if_neg h]
  have hp : (businessView (transformAll raw now2 (transformAll raw now1 st0))).products =
      (businessView (transformAll raw now1 st0)).products := by
    rw [businessView_transformAll_products]
    by_cases h : raw.products = []
    · rw [if_pos h]
    · rw [if_neg h, businessView_transformAll_products, if_neg h]
  have ho : (businessView (transformAll raw now2 (transformAll raw now1 st0))).orders =
      (businessView (transformAll raw now1 st0)).orders := by
    rw [businessView_transformAll_orders, hc]
    by_cases h : raw.orders = []
    · rw [if_pos h]
    · rw [if_neg h, businessView_transformAll_orders, if_neg h]
  have hi : (businessView (transformAll raw now2 (transformAll raw now1 st0))).order_items =
      (businessView (transformAll raw now1 st0)).order_items := by
    rw [businessView_transformAll_order_items, ho, hp]
    by_cases h : raw.order_items = []
    · rw [if_pos h]
    · rw [if_neg h, businessView_transformAll_order_items, if_neg h]
  exact stagingView_eq _ _ hc hp ho hi

/-- Rounding zero gives zero. -/
theorem round2_zero : round2 0 = 0 := by
  rw [round2, zero_mul, show ratRound 0 = 0 from by decide]
  norm_num

/-- A batch returned by the assertion gate of generate_customers_for_day
has pairwise-distinct ids, pairwise-distinct emails and no null email. -/
theorem finalizeDayBatch_ok {cs : List GenCustomer} {st : GenState}
    {out : List GenCustomer}
    (h : (finalizeDayBatch cs st).1 = Except.ok out) :
    (out.map (fun c => c.customer_id)).Nodup ∧
    (out.map (fun c => c.email)).Nodup ∧
    out.all (fun c => c.email.isSome) = true := by
  unfold finalizeDayBatch at h
  split_ifs at h with h1 h2
  · simp only [Except.ok.injEq] at h
    rw [← h]
    simp
  · simp only [Except.ok.injEq] at h
    rw [← h]
    unfold dayBatchAsserts at h2
    simp only [Bool.and_eq_true, beq_iff_eq, Nat.beq_eq_true_eq] at h2
    obtain ⟨⟨hids, hem⟩, hnn⟩ := h2
    have hnn0 : (cs.map (fun c => c.email)).countP (fun e => e.isNone) = 0 := by
      simpa using hnn
    have hmapsome := eq_map_some_of_no_none hnn0
    have hlen : ((cs.map (fun c => c.email)).filterMap id).length = cs.length := by
      have hcg := congrArg List.length hmapsome
      simpa using hcg.symm
    refine ⟨?_, ?_, ?_⟩
    · exact nodup_of_dedup_length (by simpa using hids)
    · have hfm : ((cs.map (fun c => c.email)).filterMap id).Nodup :=
        nodup_of_dedup_length (by rw [hlen]; simpa using hem)
      rw [hmapsome]
      exact hfm.map (Option.some_injective _)
    · rw [List.all_eq_true]
      intro c hc
      have hmem : c.email ∈ cs.map (fun c => c.email) :=
        List.mem_map_of_mem (fun c => c.email) hc
      have hne := (List.countP_eq_zero.mp hnn0) c.email hmem
      cases he : c.email with
      | none => rw [he] at hne; simp at hne
      | some x => simp

/-- C3: whenever generate_customers_for_day returns a day batch (its three
end-of-day assertions passed rather than raising), the batch has
pairwise-distinct customer_id values, pairwise-distinct emails and no null
email, duplicate-person rows and mangled emails included. -/
theorem generated_day_batch_unique (cfg : GenConfig) (day startId : Nat)
    (globalEmails : List String) (st : GenState) (cs : List GenCustomer)
    (h : (generateCustomersForDay cfg day startId globalEmails st).1 = Except.ok cs) :
    (cs.map (fun c => c.customer_id)).Nodup ∧
    (cs.map (fun c => c.email)).Nodup ∧
    cs.all (fun c => c.email.isSome) = true := by
  unfold generateCustomersForDay at h
  rcases hrand : randint 10 50 st with ⟨num, st1⟩
  rw [hrand] at h
  dsimp only at h
  rcases hbase : genBaseLoop cfg day startId num 0 [] globalEmails st1 with
    ⟨cs0, used0, st2⟩
  rw [hbase] at h
  dsimp only at h
  split at h
  · rcases hdup : genDupLoop cfg day (startId + cs0.length)
        (cs0.length * cfg.duplicateNameRate / 10000) 0 cs0 used0
        (cs0.map (fun c => c.customer_id)) st2 with ⟨cs1, u1, i1, st3⟩
    rw [hdup] at h
    dsimp only at h
    exact finalizeDayBatch_ok h
  · exact finalizeDayBatch_ok h

/-- Witness for C3: the concrete generator streams produce an accepted
10-customer batch satisfying the invariant. -/
theorem generated_day_batch_unique_witness :
    (generateCustomersForDay defaultGenConfig 0 1 [] wGenState).1 =
      Except.ok wDayBatch ∧
    (wDayBatch.map (fun c => c.customer_id)).Nodup ∧
    (wDayBatch.map (fun c => c.email)).Nodup ∧
    wDayBatch.all (fun c => c.email.isSome) = true :=
  ⟨by decide,
   generated_day_batch_unique defaultGenConfig 0 1 [] wGenState wDayBatch (by decide)⟩

/-- C9: the customer-metrics aggregation emits exactly one row per staged
customer (the LEFT JOIN keeps zero-order customers), and the avg_order_value
division is guarded: a customer with total_orders = 0 gets divisor 1 and an
average of 0, with no error path in the computation. -/
theorem customer_metrics_total_and_div_guard (cs : List CustomerRow)
    (os : List OrderRow) (its : List OrderItemRow) (today : Int) (now : Nat) :
    ((buildCustomerMetrics cs os its today now).map (fun r => r.customer_id)).Perm
      (cs.map (fun c => c.customer_id)) ∧
    ∀ r ∈ buildCustomerMetrics cs os its today now,
      r.total_orders = 0 → r.avg_order_value = 0 := by
  constructor
  · unfold buildCustomerMetrics
    refine ((List.perm_insertionSort
        (fun a b : CustomerMetricRow => b.total_revenue ≤ a.total_revenue) _).map
        (fun r : CustomerMetricRow => r.customer_id)).trans ?_
    rw [List.map_map]
    exact List.Perm.refl _
  · intro r hr h0
    unfold buildCustomerMetrics at hr
    have hr2 := (List.perm_insertionSort
      (fun a b : CustomerMetricRow => b.total_revenue ≤ a.total_revenue) _).mem_iff.mp hr
    obtain ⟨c, hc, rfl⟩ := List.mem_map.mp hr2
    dsimp only at h0 ⊢
    rw [List.length_eq_zero] at h0
    rw [h0]
    have hfil : its.filter (fun it => decide (it.order_id ∈ ([] : List Int))) = [] := by
      simp
    rw [hfil]
    simp only [List.map_nil, List.sum_nil, List.length_nil, if_pos rfl]
    rw [round2_zero, zero_div]
    exact round2_zero

/-- Witness for C9: a staged customer with no orders at all is still
emitted, with total_orders = 0 and a guarded average of 0. -/
theorem customer_metrics_total_and_div_guard_witness :
    wMetric9 ∈ buildCustomerMetrics [wCust9] [] [] 100 7 ∧
    wMetric9.total_orders = 0 ∧ wMetric9.avg_order_value = 0 := by
  have hm : buildCustomerMetrics [wCust9] [] [] 100 7 = [wMetric9] := by
    simp [buildCustomerMetrics, wCust9, wMetric9, round2, ratRound, lineRevenue]
  have hmem : wMetric9 ∈ buildCustomerMetrics [wCust9] [] [] 100 7 := by
    rw [hm]
    exact List.mem_singleton.mpr rfl
  exact ⟨hmem, rfl,
    (customer_metrics_total_and_div_guard [wCust9] [] [] 100 7).2 wMetric9 hmem rfl⟩

/-- C10: a failing ingested-dates query (for example when the raw table
does not exist yet) is swallowed into the empty ingested set, so an
incremental ingest of a never-ingested table selects every available
partition and behaves exactly like a full ingest. -/
theorem failed_ingested_query_processes_all_partitions {ρ : Type}
    (store : PartitionStore ρ) (tableName : String) (allDates : List String)
    (e : String) (q : Except String (List String)) (now : Nat) :
    getIngestedDates (Except.error e) = [] ∧
    datesToProcess allDates (Except.error e) true = allDates ∧
    ingestTable store tableName allDates (Except.error e) true now =
      ingestTable store tableName allDates q false now := by
  refine ⟨rfl, ?_, ?_⟩
  · simp [datesToProcess, getIngestedDates]
  · simp [ingestTable, datesToProcess, getIngestedDates]

end ETL
